import Mathlib

/-!
Shallow embedding of the cross-platform response-unification layer of
`react-native-store-age-declaration`:

* the unified result shape and the pure derivation helpers
  (`isUserAdult`, `isSupervised`, `getAgeRangeString`) from the
  `useAgeRange` hook module;
* the fetch controller of `useAgeRange` (start phase, vendor dispatch,
  settlement and exception handling), with the vendor adapter supplied
  as an explicit argument and the calls it issues recorded in a list;
* the `checkAgeDeclaration` fetch of the `useStoreAgeDeclaration` hook;
* the `AgeGateService` TTL cache wrapper from the implementation guide.

TypeScript `T | null` fields become `Option T`; TypeScript numbers that
hold ages, thresholds and timestamps become `Int`; JavaScript truthiness
of a nullable string (`if (result.error)`) is modelled by `jsTruthy`.
A settled promise is a `VendorReply`: either a resolved value or a
rejection carrying the stringified message.
-/

namespace StoreAgeDeclaration

/-- The react-native `Platform.OS` tag as the code consumes it: the source
branches on the values `'android'` and `'ios'`, and every other OS string
falls through to the remaining branch, so a three-valued tag is enough. -/
inductive Platform
  | android
  | ios
  | other
deriving DecidableEq, Repr

/-- Settled state of a vendor-adapter promise: `resolved` carries the
value, `rejected` carries the stringified exception message
(`err instanceof Error ? err.message : String(err)`). -/
inductive VendorReply (α : Type)
  | resolved (r : α)
  | rejected (msg : String)
deriving DecidableEq, Repr

/-- JavaScript truthiness of a `string | null` value: `null` and the
empty string are falsy, every other string is truthy. -/
def jsTruthy (o : Option String) : Bool :=
  match o with
  | none => false
  | some s => decide (s ≠ "")

/-- JavaScript `msg || fallback` on a string: the fallback replaces an
empty (falsy) message. -/
def messageOr (msg fallback : String) : String :=
  if msg = "" then fallback else msg

/-- `PlayAgeRangeStatusResult`: raw Android vendor payload
(Google Play Age Signals API). -/
structure PlayAgeRangeStatusResult where
  installId : Option String
  userStatus : Option String
  ageLower : Option Int
  ageUpper : Option Int
  mostRecentApprovalDate : Option String
  error : Option String
  errorCode : Option Int
deriving DecidableEq, Repr

/-- `DeclaredAgeRangeResult`: raw iOS vendor payload
(Apple Declared Age Range API). -/
structure DeclaredAgeRangeResult where
  status : Option String
  parentControls : Option String
  lowerBound : Option Int
  upperBound : Option Int
  declaration : Option String
deriving DecidableEq, Repr

/-- `rawResponse` field of the unified result: either platform's raw
payload, as stored by the hook for debugging. -/
inductive RawResponse
  | android (r : PlayAgeRangeStatusResult)
  | ios (r : DeclaredAgeRangeResult)
deriving DecidableEq, Repr

/-- `UnifiedAgeRangeResult`: the unified cross-platform result object
returned by the `useAgeRange` hook (the `refresh` closure is not part of
the data model). -/
structure UnifiedAgeRangeResult where
  loading : Bool
  error : Option String
  errorCode : Option Int
  status : Option String
  ageLower : Option Int
  ageUpper : Option Int
  mostRecentApprovalDate : Option String
  parentControls : Option String
  declaration : Option String
  installId : Option String
  platform : Platform
  rawResponse : Option RawResponse
deriving DecidableEq, Repr

/-- `isUserAdult(result, adultAge)`: Android checks `VERIFIED` status or
the age-range lower bound; every non-android platform takes the iOS
branch, which requires `status === 'sharing'` and the lower bound. -/
def isUserAdult (result : UnifiedAgeRangeResult) (adultAge : Int) : Bool :=
  if result.platform = Platform.android then
    if result.status = some "VERIFIED" then
      true
    else
      match result.ageLower with
      | some a => decide (adultAge ≤ a)
      | none => false
  else
    if result.status = some "sharing" then
      match result.ageLower with
      | some a => decide (adultAge ≤ a)
      | none => false
    else
      false

/-- `isSupervised(result)`: Android checks the three supervised status
strings; every non-android platform checks `parentControls === 'restricted'`. -/
def isSupervised (result : UnifiedAgeRangeResult) : Bool :=
  if result.platform = Platform.android then
    decide (result.status = some "SUPERVISED" ∨
      result.status = some "SUPERVISED_APPROVAL_PENDING" ∨
      result.status = some "SUPERVISED_APPROVAL_DENIED")
  else
    decide (result.parentControls = some "restricted")

/-- `getAgeRangeString(result)`: `null` without a lower bound,
`"${ageLower}+"` without an upper bound, `"${ageLower}-${ageUpper}"`
otherwise. -/
def getAgeRangeString (result : UnifiedAgeRangeResult) : Option String :=
  match result.ageLower with
  | none => none
  | some lower =>
    match result.ageUpper with
    | none => some (toString lower ++ "+")
    | some upper => some (toString lower ++ "-" ++ toString upper)

/-- Concrete unified result used to show that `isUserAdult` and
`isSupervised` can hold at once: an Android supervised user whose age
range starts at 18. -/
def supervisedAdultExample : UnifiedAgeRangeResult :=
  { loading := false
    error := none
    errorCode := none
    status := some "SUPERVISED"
    ageLower := some 18
    ageUpper := none
    mostRecentApprovalDate := none
    parentControls := none
    declaration := none
    installId := none
    platform := Platform.android
    rawResponse := none }

/-- `iosThresholds` option of the `useAgeRange` hook: three age
thresholds passed to the iOS vendor adapter. -/
structure IosThresholds where
  first : Int
  second : Int
  third : Int
deriving DecidableEq, Repr

/-- `UseAgeRangeOptions` (the callbacks are not part of the data
model). `iosThresholds = none` means the option was omitted. -/
structure UseAgeRangeOptions where
  autoFetch : Bool
  iosThresholds : Option IosThresholds
deriving DecidableEq, Repr

/-- The destructuring default `iosThresholds = { first: 13, second: 15,
third: 18 }` applied to the options object. -/
def resolvedIosThresholds (opts : UseAgeRangeOptions) : IosThresholds :=
  opts.iosThresholds.getD { first := 13, second := 15, third := 18 }

/-- Internal state of one `useAgeRange` hook instance: the eleven
`useState` cells (`platform` is computed at return time, not stored). -/
structure HookState where
  loading : Bool
  error : Option String
  errorCode : Option Int
  status : Option String
  ageLower : Option Int
  ageUpper : Option Int
  mostRecentApprovalDate : Option String
  parentControls : Option String
  declaration : Option String
  installId : Option String
  rawResponse : Option RawResponse
deriving DecidableEq, Repr

/-- Initial hook state: `loading = false` and every other cell `null`. -/
def initialHookState : HookState :=
  { loading := false
    error := none
    errorCode := none
    status := none
    ageLower := none
    ageUpper := none
    mostRecentApprovalDate := none
    parentControls := none
    declaration := none
    installId := none
    rawResponse := none }

/-- The object the hook returns to the consumer: the state cells plus
the platform tag sampled from `Platform.OS`. -/
def buildResult (s : HookState) (p : Platform) : UnifiedAgeRangeResult :=
  { loading := s.loading
    error := s.error
    errorCode := s.errorCode
    status := s.status
    ageLower := s.ageLower
    ageUpper := s.ageUpper
    mostRecentApprovalDate := s.mostRecentApprovalDate
    parentControls := s.parentControls
    declaration := s.declaration
    installId := s.installId
    platform := p
    rawResponse := s.rawResponse }

/-- Synchronous start of `fetchAgeRange`, run before the vendor call
settles: `setLoading(true); setError(null); setErrorCode(null)`. No
other cell is written before the suspension point, so this is the
state the consumer observes for the whole time the fetch is
outstanding. -/
def fetchStart (s : HookState) : HookState :=
  { s with loading := true, error := none, errorCode := none }

/-- A vendor-adapter invocation issued by the fetch body, with the
arguments it was given. -/
inductive VendorCall
  | androidCall
  | iosCall (first second third : Int)
deriving DecidableEq, Repr

/-- The vendor call the fetch body issues before suspending: android has
no arguments, ios receives the three configured thresholds in order, and
any other platform issues no call at all. The body consults nothing but
the platform tag and the options, so the dispatch does not depend on the
held state. -/
def fetchDispatch (p : Platform) (t : IosThresholds) : List VendorCall :=
  match p with
  | Platform.android => [VendorCall.androidCall]
  | Platform.ios => [VendorCall.iosCall t.first t.second t.third]
  | Platform.other => []

/-- One `refresh()` invocation run up to its suspension point: the state
after the synchronous setters together with the vendor calls now in
flight. The source body has no in-flight guard, so this prefix runs the
same way whatever the current state is. -/
def fetchPrefix (s : HookState) (p : Platform) (opts : UseAgeRangeOptions) :
    HookState × List VendorCall :=
  (fetchStart s, fetchDispatch p (resolvedIosThresholds opts))

/-- The `catch` block of `fetchAgeRange`: store the stringified message
and null out the seven data cells (`rawResponse` and `errorCode` are not
touched by the block). -/
def fetchCatch (s : HookState) (msg : String) : HookState :=
  { s with error := some msg
           status := none
           ageLower := none
           ageUpper := none
           mostRecentApprovalDate := none
           parentControls := none
           declaration := none
           installId := none }

/-- The android resolution branch of `fetchAgeRange`: store the raw
result, then either copy the in-band error (nulling the data cells but
leaving `parentControls`/`declaration` untouched) or copy the data
fields. -/
def androidApply (s : HookState) (r : PlayAgeRangeStatusResult) : HookState :=
  if jsTruthy r.error then
    { s with rawResponse := some (RawResponse.android r)
             error := r.error
             errorCode := r.errorCode
             status := none
             ageLower := none
             ageUpper := none
             mostRecentApprovalDate := none
             installId := none }
  else
    { s with rawResponse := some (RawResponse.android r)
             status := r.userStatus
             ageLower := r.ageLower
             ageUpper := r.ageUpper
             mostRecentApprovalDate := r.mostRecentApprovalDate
             installId := r.installId
             parentControls := none
             declaration := none }

/-- The ios resolution branch of `fetchAgeRange`: store the raw result
and copy status, bounds, parentControls and declaration; the
android-only cells are nulled. -/
def iosApply (s : HookState) (r : DeclaredAgeRangeResult) : HookState :=
  { s with rawResponse := some (RawResponse.ios r)
           status := r.status
           ageLower := r.lowerBound
           ageUpper := r.upperBound
           parentControls := r.parentControls
           declaration := r.declaration
           mostRecentApprovalDate := none
           installId := none }

/-- One complete `fetchAgeRange` cycle of the `useAgeRange` hook, from
invocation to settlement. The android adapter's settled reply is passed
directly; the ios adapter is passed as a function so that the arguments
it is invoked with are visible. Returns the final state (the `finally`
block sets `loading := false`) together with the vendor calls issued. -/
def fetchAgeRange (s : HookState) (p : Platform) (opts : UseAgeRangeOptions)
    (androidReply : VendorReply PlayAgeRangeStatusResult)
    (iosAdapter : Int → Int → Int → VendorReply DeclaredAgeRangeResult) :
    HookState × List VendorCall :=
  let s1 := fetchStart s
  let t := resolvedIosThresholds opts
  let final : HookState :=
    match p with
    | Platform.android =>
      match androidReply with
      | VendorReply.resolved r => androidApply s1 r
      | VendorReply.rejected msg => fetchCatch s1 msg
    | Platform.ios =>
      match iosAdapter t.first t.second t.third with
      | VendorReply.resolved r => iosApply s1 r
      | VendorReply.rejected msg => fetchCatch s1 msg
    | Platform.other => s1
  ({ final with loading := false }, fetchDispatch p t)

/-- Options object with every option omitted, so the iOS thresholds
take their default `{13, 15, 18}`. -/
def exampleOptions : UseAgeRangeOptions :=
  { autoFetch := true, iosThresholds := none }

/-- A hook state holding the outcome of an earlier failed fetch, used to
observe what the start of the next fetch overwrites. -/
def previousErrorState : HookState :=
  { initialHookState with error := some "previous error", errorCode := some (-3) }

/-- `AgeDeclarationResult.ageRange`: the `{ lower, upper }` object of the
`useStoreAgeDeclaration` hook. -/
structure AgeRange where
  lower : Option Int
  upper : Option Int
deriving DecidableEq, Repr

/-- `AgeDeclarationResult`: the state object of the
`useStoreAgeDeclaration` hook. -/
structure AgeDeclarationResult where
  status : Option String
  ageRange : Option AgeRange
  mostRecentApprovalDate : Option String
  loading : Bool
  error : Option String
deriving DecidableEq, Repr

/-- `UseStoreAgeDeclarationOptions`: iOS thresholds of the
`useStoreAgeDeclaration` hook, each defaulting separately
(13, 17, 21). `none` means the option was omitted. -/
structure UseStoreAgeDeclarationOptions where
  iosFirstThreshold : Option Int
  iosSecondThreshold : Option Int
  iosThirdThreshold : Option Int
deriving DecidableEq, Repr

/-- Initial `useStoreAgeDeclaration` state: all fields null, not
loading. -/
def initialAgeDeclarationResult : AgeDeclarationResult :=
  { status := none
    ageRange := none
    mostRecentApprovalDate := none
    loading := false
    error := none }

/-- Synchronous start of `checkAgeDeclaration`:
`setResult(prev => ({ ...prev, loading: true, error: null }))`. -/
def checkStart (prev : AgeDeclarationResult) : AgeDeclarationResult :=
  { prev with loading := true, error := none }

/-- One complete `checkAgeDeclaration` cycle of the
`useStoreAgeDeclaration` hook, from invocation to settlement. Every
settled branch replaces the whole result object, so the outcome does not
depend on the previous state `prev` (which only shapes the transient
loading state, `checkStart prev`). -/
def checkAgeDeclaration (prev : AgeDeclarationResult) (p : Platform)
    (opts : UseStoreAgeDeclarationOptions)
    (androidReply : VendorReply PlayAgeRangeStatusResult)
    (iosAdapter : Int → Int → Int → VendorReply DeclaredAgeRangeResult) :
    AgeDeclarationResult :=
  let _started := checkStart prev
  match p with
  | Platform.android =>
    match androidReply with
    | VendorReply.resolved r =>
      if jsTruthy r.error then
        { status := none
          ageRange := none
          mostRecentApprovalDate := none
          loading := false
          error := r.error }
      else
        { status := r.userStatus
          ageRange := some { lower := r.ageLower, upper := r.ageUpper }
          mostRecentApprovalDate := r.mostRecentApprovalDate
          loading := false
          error := none }
    | VendorReply.rejected msg =>
      { status := none
        ageRange := none
        mostRecentApprovalDate := none
        loading := false
        error := some (messageOr msg "An unexpected error occurred") }
  | Platform.ios =>
    match iosAdapter (opts.iosFirstThreshold.getD 13) (opts.iosSecondThreshold.getD 17)
        (opts.iosThirdThreshold.getD 21) with
    | VendorReply.resolved r =>
      { status := r.status
        ageRange := some { lower := r.lowerBound, upper := r.upperBound }
        mostRecentApprovalDate := none
        loading := false
        error := none }
    | VendorReply.rejected msg =>
      { status := none
        ageRange := none
        mostRecentApprovalDate := none
        loading := false
        error := some (messageOr msg "Failed to request iOS age range") }
  | Platform.other =>
    { status := none
      ageRange := none
      mostRecentApprovalDate := none
      loading := false
      error := some "Platform not supported" }

/-- The three-way domain status of the `AgeGateService` wrapper. -/
inductive AgeStatus
  | ADULT
  | CHILD
  | UNKNOWN
deriving DecidableEq, Repr

/-- Mutable fields of the `AgeGateService` singleton. A timestamp of a
never-written cache is 0, matching the source's initialisation. -/
structure AgeGateState where
  cachedStatus : Option AgeStatus
  cacheTimestamp : Int
deriving DecidableEq, Repr

/-- `CACHE_DURATION = 30 * 60 * 1000` milliseconds (30 minutes). -/
def CACHE_DURATION : Int := 30 * 60 * 1000

/-- `isCacheValid()`: false with no cached status (the statuses are
non-empty strings, so JS truthiness is just presence), else the
wall-clock age `Date.now() - cacheTimestamp` must be strictly below the
TTL. -/
def isCacheValid (st : AgeGateState) (now : Int) : Bool :=
  match st.cachedStatus with
  | none => false
  | some _ => decide (now - st.cacheTimestamp < CACHE_DURATION)

/-- `cacheAndReturn(status)`: overwrite both cache fields (the prior
state is irrelevant) and return the status. -/
def cacheAndReturn (now : Int) (status : AgeStatus) : AgeStatus × AgeGateState :=
  (status, { cachedStatus := some status, cacheTimestamp := now })

/-- `getAndroidAgeStatus()`: the vendor reply collapsed to the three-way
status; a rejection or an in-band error yields `UNKNOWN`, and the switch
maps `OVER_AGE`/`UNDER_AGE` with `UNKNOWN` as default. Every path caches
the value it returns. -/
def getAndroidAgeStatus (now : Int)
    (reply : VendorReply PlayAgeRangeStatusResult) : AgeStatus × AgeGateState :=
  match reply with
  | VendorReply.rejected _ => cacheAndReturn now AgeStatus.UNKNOWN
  | VendorReply.resolved r =>
    if jsTruthy r.error then
      cacheAndReturn now AgeStatus.UNKNOWN
    else
      match r.userStatus with
      | some "OVER_AGE" => cacheAndReturn now AgeStatus.ADULT
      | some "UNDER_AGE" => cacheAndReturn now AgeStatus.CHILD
      | _ => cacheAndReturn now AgeStatus.UNKNOWN

/-- `getAgeStatus(forceRefresh)`: return the cached status when
`!forceRefresh && isCacheValid()`; otherwise dispatch to the platform
implementation (android queries the vendor, anything else returns
`UNKNOWN` without a vendor call). The third component records whether
the vendor adapter was invoked. -/
def getAgeStatus (st : AgeGateState) (forceRefresh : Bool) (p : Platform)
    (now : Int) (reply : VendorReply PlayAgeRangeStatusResult) :
    AgeStatus × AgeGateState × Bool :=
  if !forceRefresh && isCacheValid st now then
    (st.cachedStatus.getD AgeStatus.UNKNOWN, st, false)
  else
    match p with
    | Platform.android =>
      ((getAndroidAgeStatus now reply).1, (getAndroidAgeStatus now reply).2, true)
    | _ => (AgeStatus.UNKNOWN, st, false)

/-- Cache state holding a fresh `ADULT` entry written at time 0. -/
def adultCacheState : AgeGateState :=
  { cachedStatus := some AgeStatus.ADULT, cacheTimestamp := 0 }

/- ------------------------------------------------------------------ -/
/- Theorems                                                            -/
/- ------------------------------------------------------------------ -/

/-- Every `AgeStatus` value is one of the three domain statuses. -/
theorem ageStatus_trichotomy (x : AgeStatus) :
    x = AgeStatus.ADULT ∨ x = AgeStatus.CHILD ∨ x = AgeStatus.UNKNOWN := by
  cases x
  · exact Or.inl rfl
  · exact Or.inr (Or.inl rfl)
  · exact Or.inr (Or.inr rfl)

/-- The calls a full fetch cycle issues are exactly the calls its
synchronous prefix issues. -/
theorem fetchAgeRange_calls_eq_prefix (s : HookState) (p : Platform)
    (opts : UseAgeRangeOptions) (ar : VendorReply PlayAgeRangeStatusResult)
    (ia : Int → Int → Int → VendorReply DeclaredAgeRangeResult) :
    (fetchAgeRange s p opts ar ia).2 = (fetchPrefix s p opts).2 := rfl

/-- C1: `isUserAdult` is characterised per platform: on android it is
true iff `status = "VERIFIED"` or the lower age bound exists and is at
least `adultAge`; on ios it is true iff `status = "sharing"` and the
lower age bound exists and is at least `adultAge`; in particular it is
false on ios for `status = "declined"`, and false on either platform in
an error state (error set, data fields null). -/
theorem isUserAdult_platform_cases (result : UnifiedAgeRangeResult) (adultAge : Int) :
    (result.platform = Platform.android →
      (isUserAdult result adultAge = true ↔
        result.status = some "VERIFIED" ∨
          ∃ a, result.ageLower = some a ∧ adultAge ≤ a)) ∧
    (result.platform = Platform.ios →
      (isUserAdult result adultAge = true ↔
        result.status = some "sharing" ∧
          ∃ a, result.ageLower = some a ∧ adultAge ≤ a)) ∧
    (result.platform = Platform.ios → result.status = some "declined" →
      isUserAdult result adultAge = false) ∧
    (result.error.isSome = true → result.status = none → result.ageLower = none →
      isUserAdult result adultAge = false) := by
  refine ⟨?_, ?_, ?_, ?_⟩
  · intro hand
    simp only [isUserAdult, hand, if_pos rfl]
    by_cases hv : result.status = some "VERIFIED"
    · simp [hv]
    · simp only [hv, if_false]
      cases hal : result.ageLower with
      | none => simp [hal, hv]
      | some a => simp [hal, hv]
  · intro hios
    have hne : ¬ result.platform = Platform.android := by
      rw [hios]; intro h; cases h
    simp only [isUserAdult, if_neg hne]
    by_cases hs : result.status = some "sharing"
    · simp only [hs, if_pos hs]
      cases hal : result.ageLower with
      | none => simp
      | some a => simp
    · simp [hs]
  · intro hios hdecl
    have hne : ¬ result.platform = Platform.android := by
      rw [hios]; intro h; cases h
    have hs : ¬ result.status = some "sharing" := by
      rw [hdecl]; intro h
      exact absurd (Option.some.inj h) (by decide)
    simp [isUserAdult, hne, hs]
  · intro _ hst hal
    unfold isUserAdult
    by_cases hp : result.platform = Platform.android
    · simp [hp, hst, hal]
    · simp [hp, hst]

/-- Witness for `isUserAdult_platform_cases`: instantiated at the
concrete Android supervised-18 example, the android clause yields
`isUserAdult = true`. -/
theorem isUserAdult_platform_cases_witness :
    isUserAdult supervisedAdultExample 18 = true := by
  have h := isUserAdult_platform_cases supervisedAdultExample 18
  exact (h.1 rfl).mpr (Or.inr ⟨18, rfl, le_refl 18⟩)

/-- C2 counterexample: the fetch body has no in-flight guard. From the
initial state, one `refresh()` leaves the controller loading with one
iOS vendor call outstanding, and a second `refresh()` issued in that
state immediately dispatches another vendor call, so two UI-presenting
vendor calls are in flight at once — contradicting the claim that the
second invocation reuses the in-flight call or is serialized after it. -/
theorem fetch_no_inflight_guard_cex :
    ((fetchPrefix initialHookState Platform.ios exampleOptions).1).loading = true ∧
    (fetchPrefix (fetchPrefix initialHookState Platform.ios exampleOptions).1
      Platform.ios exampleOptions).2 = [VendorCall.iosCall 13 15 18] ∧
    ((fetchPrefix initialHookState Platform.ios exampleOptions).2 ++
      (fetchPrefix (fetchPrefix initialHookState Platform.ios exampleOptions).1
        Platform.ios exampleOptions).2).length = 2 := by
  refine ⟨rfl, rfl, rfl⟩

/-- C2 amended: `fetchAgeRange` dispatches to the vendor adapter
unconditionally. A `refresh()` issued while a previous fetch is still
outstanding (`loading = true`) immediately issues exactly one new
vendor call on either supported platform, and the dispatched calls do
not depend on the held state at all, so concurrent vendor calls are
possible. -/
theorem fetch_dispatch_unconditional (s s2 : HookState)
    (opts : UseAgeRangeOptions) (h : s.loading = true) :
    (fetchPrefix s Platform.ios opts).2.length = 1 ∧
    (fetchPrefix s Platform.android opts).2.length = 1 ∧
    (fetchPrefix s Platform.ios opts).2 = (fetchPrefix s2 Platform.ios opts).2 ∧
    (fetchPrefix s Platform.android opts).2 = (fetchPrefix s2 Platform.android opts).2 :=
  ⟨rfl, rfl, rfl, rfl⟩

/-- Witness for `fetch_dispatch_unconditional`: a second invocation from
the mid-flight state after `fetchStart` issues exactly one iOS call. -/
theorem fetch_dispatch_unconditional_witness :
    (fetchStart initialHookState).loading = true ∧
    (fetchPrefix (fetchStart initialHookState) Platform.ios exampleOptions).2.length = 1 :=
  ⟨rfl, (fetch_dispatch_unconditional (fetchStart initialHookState) initialHookState
    exampleOptions rfl).1⟩

/-- C3: on a platform that is neither android nor ios, a completed
`checkAgeDeclaration` fetch of the `useStoreAgeDeclaration` hook yields
`error = "Platform not supported"` with `loading = false` and all data
fields null, whatever the previous state, options and adapters were —
the embedding is a total function, so nothing is thrown to the caller,
and the result is not left unchanged. -/
theorem checkAgeDeclaration_unsupported_platform (prev : AgeDeclarationResult)
    (opts : UseStoreAgeDeclarationOptions)
    (ar : VendorReply PlayAgeRangeStatusResult)
    (ia : Int → Int → Int → VendorReply DeclaredAgeRangeResult) :
    checkAgeDeclaration prev Platform.other opts ar ia =
      { status := none
        ageRange := none
        mostRecentApprovalDate := none
        loading := false
        error := some "Platform not supported" } := rfl

/-- C4 counterexample: starting a fetch does not change only the loading
flag. From a state holding the error of an earlier failed fetch, the
start phase also overwrites `error` (and `errorCode`) with null, so the
started state differs from the previous state with only `loading`
flipped. -/
theorem fetchStart_not_only_loading :
    ¬ (fetchStart previousErrorState = { previousErrorState with loading := true }) := by
  decide

/-- C4 amended: while a fetch is outstanding the hook state is exactly
`fetchStart` of the previous state (the vendor await is the only
suspension point): `loading` is true, `error` and `errorCode` are reset
to their initial null values, and each of the eight remaining cells
(status, ageLower, ageUpper, mostRecentApprovalDate, parentControls,
declaration, installId, rawResponse) holds its previous value. -/
theorem fetchStart_frame (s : HookState) :
    (fetchStart s).loading = true ∧
    (fetchStart s).error = none ∧
    (fetchStart s).errorCode = none ∧
    (fetchStart s).status = s.status ∧
    (fetchStart s).ageLower = s.ageLower ∧
    (fetchStart s).ageUpper = s.ageUpper ∧
    (fetchStart s).mostRecentApprovalDate = s.mostRecentApprovalDate ∧
    (fetchStart s).parentControls = s.parentControls ∧
    (fetchStart s).declaration = s.declaration ∧
    (fetchStart s).installId = s.installId ∧
    (fetchStart s).rawResponse = s.rawResponse :=
  ⟨rfl, rfl, rfl, rfl, rfl, rfl, rfl, rfl, rfl, rfl, rfl⟩

/-- C5: a rejected vendor call is caught and normalized. On ios, if the
adapter rejects with message `msg`, the completed fetch holds
`error = msg`, the seven data cells null and `loading = false`; an
android rejection is normalized by the same catch block. The embedding
is a total function, so no exception reaches the consumer. -/
theorem fetch_rejection_normalized (s : HookState) (opts : UseAgeRangeOptions)
    (ar : VendorReply PlayAgeRangeStatusResult)
    (ia : Int → Int → Int → VendorReply DeclaredAgeRangeResult) (msg : String)
    (hia : ia (resolvedIosThresholds opts).first (resolvedIosThresholds opts).second
      (resolvedIosThresholds opts).third = VendorReply.rejected msg) :
    ((fetchAgeRange s Platform.ios opts ar ia).1.error = some msg ∧
      (fetchAgeRange s Platform.ios opts ar ia).1.status = none ∧
      (fetchAgeRange s Platform.ios opts ar ia).1.ageLower = none ∧
      (fetchAgeRange s Platform.ios opts ar ia).1.ageUpper = none ∧
      (fetchAgeRange s Platform.ios opts ar ia).1.mostRecentApprovalDate = none ∧
      (fetchAgeRange s Platform.ios opts ar ia).1.parentControls = none ∧
      (fetchAgeRange s Platform.ios opts ar ia).1.declaration = none ∧
      (fetchAgeRange s Platform.ios opts ar ia).1.installId = none ∧
      (fetchAgeRange s Platform.ios opts ar ia).1.loading = false) ∧
    ((fetchAgeRange s Platform.android opts (VendorReply.rejected msg) ia).1.error = some msg ∧
      (fetchAgeRange s Platform.android opts (VendorReply.rejected msg) ia).1.status = none ∧
      (fetchAgeRange s Platform.android opts (VendorReply.rejected msg) ia).1.ageLower = none ∧
      (fetchAgeRange s Platform.android opts (VendorReply.rejected msg) ia).1.ageUpper = none ∧
      (fetchAgeRange s Platform.android opts (VendorReply.rejected msg) ia).1.mostRecentApprovalDate = none ∧
      (fetchAgeRange s Platform.android opts (VendorReply.rejected msg) ia).1.parentControls = none ∧
      (fetchAgeRange s Platform.android opts (VendorReply.rejected msg) ia).1.declaration = none ∧
      (fetchAgeRange s Platform.android opts (VendorReply.rejected msg) ia).1.installId = none ∧
      (fetchAgeRange s Platform.android opts (VendorReply.rejected msg) ia).1.loading = false) := by
  constructor
  · simp [fetchAgeRange, fetchCatch, fetchStart, hia]
  · simp [fetchAgeRange, fetchCatch, fetchStart]

/-- Witness for `fetch_rejection_normalized`: the concrete scenario of an
iOS adapter rejection with message `"User cancelled"` from the initial
state ends with that message as the error. -/
theorem fetch_rejection_normalized_witness :
    (fetchAgeRange initialHookState Platform.ios exampleOptions
      (VendorReply.rejected "boom")
      (fun _ _ _ => VendorReply.rejected "User cancelled")).1.error =
        some "User cancelled" :=
  (fetch_rejection_normalized initialHookState exampleOptions
    (VendorReply.rejected "boom") (fun _ _ _ => VendorReply.rejected "User cancelled")
    "User cancelled" rfl).1.1

/-- C6: `isSupervised` is characterised per platform: on android it is
true iff `status` is one of the three supervised strings; on ios it is
true iff `parentControls = "restricted"`. -/
theorem isSupervised_platform_cases (result : UnifiedAgeRangeResult) :
    (result.platform = Platform.android →
      (isSupervised result = true ↔
        result.status = some "SUPERVISED" ∨
          result.status = some "SUPERVISED_APPROVAL_PENDING" ∨
          result.status = some "SUPERVISED_APPROVAL_DENIED")) ∧
    (result.platform = Platform.ios →
      (isSupervised result = true ↔ result.parentControls = some "restricted")) := by
  constructor
  · intro hand
    simp [isSupervised, hand]
  · intro hios
    have hne : ¬ result.platform = Platform.android := by
      rw [hios]; intro h; cases h
    simp [isSupervised, hne]

/-- Witness for `isSupervised_platform_cases`: at the concrete Android
supervised example the android clause yields `isSupervised = true`. -/
theorem isSupervised_platform_cases_witness :
    isSupervised supervisedAdultExample = true := by
  have h := isSupervised_platform_cases supervisedAdultExample
  exact (h.1 rfl).mpr (Or.inl rfl)

/-- C7: `getAgeRangeString` returns `none` when the lower bound is
missing, `"${ageLower}+"` when only the upper bound is missing, and
`"${ageLower}-${ageUpper}"` otherwise; as a Lean function it is total
(never throws) and deterministic (equal results give equal strings). -/
theorem getAgeRangeString_cases (result : UnifiedAgeRangeResult) :
    (result.ageLower = none → getAgeRangeString result = none) ∧
    (∀ a, result.ageLower = some a → result.ageUpper = none →
      getAgeRangeString result = some (toString a ++ "+")) ∧
    (∀ a b, result.ageLower = some a → result.ageUpper = some b →
      getAgeRangeString result = some (toString a ++ "-" ++ toString b)) ∧
    (∀ r2 : UnifiedAgeRangeResult, result = r2 →
      getAgeRangeString result = getAgeRangeString r2) := by
  refine ⟨?_, ?_, ?_, ?_⟩
  · intro h; simp [getAgeRangeString, h]
  · intro a hl hu; simp [getAgeRangeString, hl, hu]
  · intro a b hl hu; simp [getAgeRangeString, hl, hu]
  · intro r2 h; rw [h]

/-- Witness for `getAgeRangeString_cases`: at the concrete example
(lower bound 18, no upper bound) the second clause yields `"18+"`. -/
theorem getAgeRangeString_cases_witness :
    getAgeRangeString supervisedAdultExample = some "18+" := by
  have h := getAgeRangeString_cases supervisedAdultExample
  exact h.2.1 18 rfl rfl

/-- C8: on ios the fetch dispatches to the vendor adapter with the
default thresholds 13, 15, 18 when `iosThresholds` is omitted, and with
exactly the configured `first`, `second`, `third` values in that order
otherwise. -/
theorem ios_thresholds_dispatch (s : HookState) (opts : UseAgeRangeOptions)
    (ar : VendorReply PlayAgeRangeStatusResult)
    (ia : Int → Int → Int → VendorReply DeclaredAgeRangeResult) (t : IosThresholds) :
    (opts.iosThresholds = none →
      (fetchAgeRange s Platform.ios opts ar ia).2 = [VendorCall.iosCall 13 15 18]) ∧
    (opts.iosThresholds = some t →
      (fetchAgeRange s Platform.ios opts ar ia).2 =
        [VendorCall.iosCall t.first t.second t.third]) := by
  constructor
  · intro h
    show fetchDispatch Platform.ios (resolvedIosThresholds opts) = _
    simp [fetchDispatch, resolvedIosThresholds, h]
  · intro h
    show fetchDispatch Platform.ios (resolvedIosThresholds opts) = _
    simp [fetchDispatch, resolvedIosThresholds, h]

/-- Witness for `ios_thresholds_dispatch`: with the options omitted the
issued call carries 13, 15, 18; with configured thresholds
`{first := 16, second := 18, third := 21}` it carries exactly those. -/
theorem ios_thresholds_dispatch_witness :
    (fetchAgeRange initialHookState Platform.ios exampleOptions
      (VendorReply.rejected "e") (fun _ _ _ => VendorReply.rejected "e")).2 =
        [VendorCall.iosCall 13 15 18] ∧
    (fetchAgeRange initialHookState Platform.ios
      { autoFetch := true, iosThresholds := some { first := 16, second := 18, third := 21 } }
      (VendorReply.rejected "e") (fun _ _ _ => VendorReply.rejected "e")).2 =
        [VendorCall.iosCall 16 18 21] :=
  ⟨(ios_thresholds_dispatch initialHookState exampleOptions (VendorReply.rejected "e")
      (fun _ _ _ => VendorReply.rejected "e") { first := 16, second := 18, third := 21 }).1 rfl,
   (ios_thresholds_dispatch initialHookState
      { autoFetch := true, iosThresholds := some { first := 16, second := 18, third := 21 } }
      (VendorReply.rejected "e") (fun _ _ _ => VendorReply.rejected "e")
      { first := 16, second := 18, third := 21 }).2 rfl⟩

/-- C9: the `AgeGateService` cache contract. `getAgeStatus(true)` ignores
the cached status entirely (its returned status and its
vendor-invocation flag do not depend on the cache state) and on android
performs a fresh vendor query; `getAgeStatus(false)` with a cached
status younger than the 30-minute TTL returns that cached status, leaves
the state unchanged and performs no vendor call; and the returned status
is always one of `ADULT`, `CHILD`, `UNKNOWN`. -/
theorem getAgeStatus_cache_contract (st st2 : AgeGateState) (b : Bool)
    (p : Platform) (now : Int) (reply : VendorReply PlayAgeRangeStatusResult)
    (c : AgeStatus) :
    ((getAgeStatus st true p now reply).1 = (getAgeStatus st2 true p now reply).1) ∧
    ((getAgeStatus st true p now reply).2.2 = (getAgeStatus st2 true p now reply).2.2) ∧
    (p = Platform.android → (getAgeStatus st true p now reply).2.2 = true) ∧
    (st.cachedStatus = some c → now - st.cacheTimestamp < CACHE_DURATION →
      getAgeStatus st false p now reply = (c, st, false)) ∧
    ((getAgeStatus st b p now reply).1 = AgeStatus.ADULT ∨
      (getAgeStatus st b p now reply).1 = AgeStatus.CHILD ∨
      (getAgeStatus st b p now reply).1 = AgeStatus.UNKNOWN) := by
  refine ⟨?_, ?_, ?_, ?_, ?_⟩
  · cases p <;> simp [getAgeStatus]
  · cases p <;> simp [getAgeStatus]
  · intro hp
    subst hp
    simp [getAgeStatus]
  · intro hc ht
    simp [getAgeStatus, isCacheValid, hc, ht]
  · exact ageStatus_trichotomy _

/-- Witness for `getAgeStatus_cache_contract`: with a fresh `ADULT`
cache entry written at time 0 and the clock at 1000 ms, a
non-forced `getAgeStatus` returns the cached `ADULT` without touching
the state or the vendor. -/
theorem getAgeStatus_cache_contract_witness :
    getAgeStatus adultCacheState false Platform.android 1000 (VendorReply.rejected "e") =
      (AgeStatus.ADULT, adultCacheState, false) :=
  (getAgeStatus_cache_contract adultCacheState adultCacheState false Platform.android 1000
    (VendorReply.rejected "e") AgeStatus.ADULT).2.2.2.1 rfl (by decide)

/-- C10: `isUserAdult` and `isSupervised` are not mutually exclusive: the
Android result with status `"SUPERVISED"` and `ageLower = 18` satisfies
both `isUserAdult · 18` and `isSupervised`. -/
theorem adult_and_supervised_overlap :
    isUserAdult supervisedAdultExample 18 = true ∧
      isSupervised supervisedAdultExample = true := by
  constructor <;> decide

end StoreAgeDeclaration
